import Mathlib

/-!
Verification of the web-qr smart-card generator.

Shallow embedding of the TypeScript sources:
  - `src/App.tsx`: `generateImage`, `getProxiedUrl`, `fetchFaviconBase64`,
    `handleGenerate`, `handleDownloadPng`, `handleSocialPreview`;
  - the Gemini metadata service (`fetchMetadataWithGemini`);
  - `SmartCard`: the screenshot fallback state (`handleScreenshotError`).

Network and renderer effects are passed in explicitly as outcome values or
oracles, so every embedded operation is a total executable function; the
absence of exceptions in the embedded result type models the source's
catch-all error handling.
-/

/-! ### JavaScript string primitives -/

/-- Model of JavaScript `String.prototype.startsWith`. -/
def strStartsWith (s pat : String) : Bool :=
  pat.data.isPrefixOf s.data

/-- Substring test on character lists (JavaScript `String.prototype.includes`). -/
def listContainsSub (pat : List Char) : List Char → Bool
  | [] => pat.isEmpty
  | c :: cs => pat.isPrefixOf (c :: cs) || listContainsSub pat cs

/-- Model of JavaScript `String.prototype.includes`. -/
def containsSub (s pat : String) : Bool :=
  listContainsSub pat.data s.data

/-- JavaScript `String.prototype.replace` with a string pattern replaces only
the first occurrence of the pattern; this is the list-level worker. -/
def replaceFirstAux (pat repl : List Char) : List Char → List Char
  | [] => if pat.isPrefixOf ([] : List Char) then repl else []
  | c :: cs =>
    if pat.isPrefixOf (c :: cs) then repl ++ (c :: cs).drop pat.length
    else c :: replaceFirstAux pat repl cs

/-- Model of JavaScript `s.replace(pat, repl)` with a string `pat`
(first occurrence only). -/
def jsReplaceFirst (s pat repl : String) : String :=
  ⟨replaceFirstAux pat.data repl.data s.data⟩

/-- Model of JavaScript `String.prototype.trim`: strip leading and trailing
whitespace. -/
def jsTrim (s : String) : String :=
  ⟨((s.data.dropWhile Char.isWhitespace).reverse.dropWhile Char.isWhitespace).reverse⟩

/-- Character-wise lowercasing (ASCII), as JavaScript URL parsing applies to
ordinary hostnames. -/
def toLowerStr (s : String) : String :=
  ⟨s.data.map Char.toLower⟩

/-- Decimal rendering of a natural number, as JavaScript number-to-string
conversion produces for the integers used here (`Date.now()`, viewport sizes). -/
def natToDec (n : Nat) : String :=
  if n = 0 then "0" else ⟨((Nat.digits 10 n).map Nat.digitChar).reverse⟩

/-! ### `encodeURIComponent` -/

/-- Uppercase hexadecimal digit of a value below 16. -/
def hexDigit (n : Nat) : Char :=
  if n < 10 then Char.ofNat (48 + n) else Char.ofNat (65 + (n - 10))

/-- Percent-encoding of one byte. -/
def percentByte (b : Nat) : List Char :=
  [Char.ofNat 37, hexDigit (b / 16), hexDigit (b % 16)]

/-- UTF-8 bytes of a character (standard encoding by codepoint range). -/
def utf8Bytes (c : Char) : List Nat :=
  let n := c.toNat
  if n < 128 then [n]
  else if n < 2048 then [192 + n / 64, 128 + n % 64]
  else if n < 65536 then [224 + n / 4096, 128 + (n / 64) % 64, 128 + n % 64]
  else [240 + n / 262144, 128 + (n / 4096) % 64, 128 + (n / 64) % 64, 128 + n % 64]

/-- Characters left unescaped by JavaScript `encodeURIComponent`:
alphanumerics and `- _ . ! ~ * ' ( )`. -/
def isUnescapedChar (c : Char) : Bool :=
  c.isAlpha || c.isDigit ||
    [Char.ofNat 45, Char.ofNat 95, Char.ofNat 46, Char.ofNat 33, Char.ofNat 126,
     Char.ofNat 42, Char.ofNat 39, Char.ofNat 40, Char.ofNat 41].contains c

/-- Model of JavaScript `encodeURIComponent`. -/
def encodeURIComponent (s : String) : String :=
  ⟨(s.data.map (fun c =>
      if isUnescapedChar c then [c] else ((utf8Bytes c).map percentByte).flatten)).flatten⟩

/-! ### URL hostname (`new URL(u).hostname`)

Partial model of the WHATWG URL parser, restricted to what the app exercises:
`http`/`https` URLs with an ordinary (non-IPv6, non-percent-escaped) host.
The authority is the part after the scheme up to the first `/`, `?` or `#`;
user info before the last `@` is dropped, a `:port` suffix is dropped, and the
host is lowercased.  An empty host or one containing a forbidden code point
(space, `[`, `]`, `%`) makes the constructor throw, modelled as `none`. -/

/-- Authority part: characters before the first `/`, `?` or `#`. -/
def takeAuthority (l : List Char) : List Char :=
  l.takeWhile (fun c => !(c = Char.ofNat 47 || c = Char.ofNat 63 || c = Char.ofNat 35))

/-- Drop user info: keep what follows the last `@`. -/
def afterLastAt (l : List Char) : List Char :=
  (l.reverse.takeWhile (fun c => c ≠ Char.ofNat 64)).reverse

/-- Drop a port: keep what precedes the first `:`. -/
def beforeColon (l : List Char) : List Char :=
  l.takeWhile (fun c => c ≠ Char.ofNat 58)

/-- Code points that make the host invalid in this model. -/
def isForbiddenHostChar (c : Char) : Bool :=
  c = Char.ofNat 32 || c = Char.ofNat 91 || c = Char.ofNat 93 || c = Char.ofNat 37

/-- Model of `new URL(s).hostname`; `none` models the constructor throwing. -/
def urlHostname (s : String) : Option String :=
  let l := s.data
  let afterScheme : Option (List Char) :=
    if toLowerStr ⟨l.take 8⟩ = "https://" then some (l.drop 8)
    else if toLowerStr ⟨l.take 7⟩ = "http://" then some (l.drop 7)
    else none
  match afterScheme with
  | none => none
  | some r =>
    let host := (beforeColon (afterLastAt (takeAuthority r))).map Char.toLower
    if host.isEmpty || host.any isForbiddenHostChar then none
    else some ⟨host⟩

/-- The display domain shown on the card: `hostname.replace('www.', '')`
(App.tsx line 150).  JavaScript `replace` with a string pattern removes only
the FIRST occurrence of `www.`, wherever it is. -/
def displayDomain (host : String) : String :=
  jsReplaceFirst host "www." ""

/-! ### Proxy Resolver (`getProxiedUrl`, App.tsx lines 81-85) -/

/-- Model of `getProxiedUrl`: wraps a target URL in the wsrv.nl image proxy and
appends the millisecond clock reading `now` (the JavaScript `Date.now()` value
observed by this call) as a cache-defeat token. -/
def getProxiedUrl (url : String) (now : Nat) : String :=
  "https://wsrv.nl/?url=" ++ encodeURIComponent url ++ "&output=png&n=" ++ natToDec now

/-- The Microlink screenshot request URL built in `handleGenerate`
(App.tsx line 170). -/
def microlinkUrl (url : String) (vw vh : Nat) (colorScheme : String) : String :=
  "https://api.microlink.io/?url=" ++ encodeURIComponent url ++
    "&screenshot=true&meta=false&embed=screenshot.url&screenshot.type=png" ++
    "&screenshot.deviceScaleFactor=2&waitFor=2s&screenshot.fullPage=false" ++
    "&screenshot.bg=true&viewport.width=" ++ natToDec vw ++
    "&viewport.height=" ++ natToDec vh ++ "&colorScheme=" ++ colorScheme

/-- The WordPress mShots backup screenshot URL built in `handleGenerate`
(App.tsx line 175). -/
def mshotsUrl (url : String) (vw vh : Nat) : String :=
  "https://s0.wp.com/mshots/v1/" ++ encodeURIComponent url ++
    "?w=" ++ natToDec vw ++ "&h=" ++ natToDec vh

/-! ### Favicon Acquirer (`fetchFaviconBase64`, App.tsx lines 88-134) -/

/-- Outcome of fetching one favicon candidate (through the proxy).
`transportError` models any throw inside the loop body (fetch rejection,
`blob()` rejection); `httpResp` carries `response.ok`, the blob size and MIME
type, and the `FileReader` result of `readAsDataURL` (`none` for a null
result, `some r` for the string `r`). -/
inductive FaviconOutcome where
  | transportError : FaviconOutcome
  | httpResp (ok : Bool) (blobSize : Nat) (blobType : String)
      (readerResult : Option String) : FaviconOutcome
deriving DecidableEq

/-- A candidate fails the early checks of the loop (and the loop continues to
the next candidate): transport error, non-success HTTP status, undersized
body, or a text/HTML content type. -/
def earlyFailB : FaviconOutcome → Bool
  | .transportError => true
  | .httpResp ok blobSize blobType _ =>
    !ok || decide (blobSize < 100) || containsSub blobType "text" ||
      containsSub blobType "html"

/-- The `FileReader` conversion fails the data-URI check: a null or empty
result, or a string not beginning with `data:image`. -/
def convBad : Option String → Bool
  | none => true
  | some r => !((!(r == "")) && strStartsWith r "data:image")

/-- The three favicon candidate services tried in priority order
(App.tsx lines 90-98). -/
def faviconServices (domain originalUrl : String) : List String :=
  ["https://t2.gstatic.com/faviconV2?client=SOCIAL&type=FAVICON&fallback_opts=TYPE,SIZE,URL&url=" ++
     encodeURIComponent originalUrl ++ "&size=128",
   "https://www.google.com/s2/favicons?domain=" ++ domain ++ "&sz=128",
   "https://icons.duckduckgo.com/ip3/" ++ domain ++ ".ico"]

/-- The candidate loop of `fetchFaviconBase64`.  `net` gives the outcome of
fetching each candidate service URL (through `getProxiedUrl`).  Returns the
resulting string together with how many candidates were attempted.  On an
early failure the loop continues; once a candidate passes the early checks the
loop terminates with the conversion result (the data URI on success, the empty
string on a failed conversion) without attempting the remaining candidates. -/
def faviconLoop (net : String → FaviconOutcome) : List String → String × Nat
  | [] => ("", 0)
  | svc :: rest =>
    match net svc with
    | .transportError =>
      let p := faviconLoop net rest
      (p.1, p.2 + 1)
    | .httpResp ok blobSize blobType readerResult =>
      if !ok || decide (blobSize < 100) || containsSub blobType "text" ||
          containsSub blobType "html" then
        let p := faviconLoop net rest
        (p.1, p.2 + 1)
      else
        match readerResult with
        | none => ("", 1)
        | some r =>
          (if (!(r == "")) && strStartsWith r "data:image" then r else "", 1)

/-- Model of `fetchFaviconBase64`: runs the candidate loop over the three
services; the function is total, modelling that the source never raises
(every failure path resolves to a string, `""` being the absent sentinel). -/
def fetchFaviconBase64 (net : String → FaviconOutcome) (domain originalUrl : String) : String :=
  (faviconLoop net (faviconServices domain originalUrl)).1

/-! ### Metadata Acquirer (`fetchMetadataWithGemini`, services/gemini) -/

/-- A JavaScript metadata object; each field is `none` when the property is
absent (`undefined`), which `JSON.parse` can produce since the code never
validates the shape of the parsed value. -/
structure JsMeta where
  title : Option String
  description : Option String
  author : Option String
  publishedTime : Option String
  keywords : Option (List String)
deriving DecidableEq

/-- Outcome of the upstream Gemini call: `throwErr` models
`generateContent` throwing (network error), `emptyText` an empty `response.text`,
`parseFail` a `JSON.parse` exception on the cleaned text, and `parseOk v` a
successful parse producing the JavaScript value `v` (of whatever shape). -/
inductive GeminiOutcome where
  | throwErr : GeminiOutcome
  | emptyText : GeminiOutcome
  | parseFail : GeminiOutcome
  | parseOk (v : JsMeta) : GeminiOutcome
deriving DecidableEq

/-- The locally-derived fallback of the catch block: `new URL(url).hostname`
(NOT the www-stripped display domain) as title and `"Link to " + url` as
description; if even URL parsing throws, `{"Website", url}`. -/
def geminiFallback (url : String) : JsMeta :=
  match urlHostname url with
  | some h => ⟨some h, some ("Link to " ++ url), some "", some "", some []⟩
  | none => ⟨some "Website", some url, some "", some "", some []⟩

/-- Model of `fetchMetadataWithGemini`: a successful parse is returned as-is
(with no shape validation); every failure is absorbed into the fallback.  The
function is total, modelling that the source never throws to its caller. -/
def fetchMetadataWithGemini (url : String) (o : GeminiOutcome) : JsMeta :=
  match o with
  | .parseOk v => v
  | _ => geminiFallback url

/-! ### Export capture (`generateImage`, App.tsx lines 51-78) -/

/-- Result of one renderer capture attempt: a data URL, or a thrown error. -/
inductive CapResult where
  | ok (dataUrl : String) : CapResult
  | err (e : String) : CapResult
deriving DecidableEq

/-- Export format selected by `generateImage`'s `format` argument. -/
inductive ImgFormat where
  | png : ImgFormat
  | svg : ImgFormat
deriving DecidableEq

/-- Model of `generateImage`: `attempt fmt skipFonts` is the renderer's
outcome for a capture of format `fmt` with the given `skipFonts` flag (all
other config fields are identical between the two attempts).  Returns the
final result together with the trace of attempted `skipFonts` flags: the first
attempt uses the full config (`skipFonts` unset); if it throws, exactly one
retry runs with `skipFonts := true`; if the retry also throws, that error is
rethrown to the caller. -/
def generateImageRun (fmt : ImgFormat) (attempt : ImgFormat → Bool → CapResult) :
    CapResult × List Bool :=
  match attempt fmt false with
  | .ok s => (.ok s, [false])
  | .err _ =>
    match attempt fmt true with
    | .ok s => (.ok s, [false, true])
    | .err e2 => (.err e2, [false, true])

/-- One step of an export flow: the discardable pre-warm capture, or a real
capture attempt with the given `skipFonts` flag. -/
inductive ExportStep where
  | prewarm : ExportStep
  | capture (skipFonts : Bool) : ExportStep
deriving DecidableEq

/-- Model of `handleDownloadPng` (App.tsx lines 207-231): when a card is
present, first a pre-warm `toPng` capture whose result and failure are both
discarded (`prewarmResult` does not influence anything), then the real
two-stage capture at high resolution.  Returns the step trace and the final
capture result (`none` when the guard returned early). -/
def handleDownloadPngRun (hasCard : Bool) (prewarmResult : CapResult)
    (attempt : ImgFormat → Bool → CapResult) : List ExportStep × Option CapResult :=
  if hasCard then
    let r := generateImageRun .png attempt
    (ExportStep.prewarm :: r.2.map ExportStep.capture, some r.1)
  else ([], none)

/-- Model of `handleSocialPreview` (App.tsx lines 278-296): when a card is
present, it calls `generateImage` directly at preview resolution, with no
pre-warm capture. -/
def handleSocialPreviewRun (hasCard : Bool)
    (attempt : ImgFormat → Bool → CapResult) : List ExportStep × Option CapResult :=
  if hasCard then
    let r := generateImageRun .png attempt
    (r.2.map ExportStep.capture, some r.1)
  else ([], none)

/-! ### Card data and application state (`types.ts`, App.tsx) -/

/-- `CardData` from `types.ts`.  `title` and `description` are JavaScript
values that may be `undefined` at runtime (the parsed Gemini value is not
shape-checked), hence `Option String`. -/
structure CardData where
  url : String
  domain : String
  title : Option String
  description : Option String
  screenshotUrl : String
  backupScreenshotUrl : Option String
  faviconUrl : String
  qrCodeDataUrl : String
  timestamp : String
deriving DecidableEq

/-- The `step` field of `GenerationStatus` from `types.ts`. -/
inductive StatusStep where
  | idle : StatusStep
  | fetching : StatusStep
  | generatingQr : StatusStep
  | completed : StatusStep
  | error : StatusStep
deriving DecidableEq

/-- `GenerationStatus` from `types.ts`. -/
structure GenerationStatus where
  step : StatusStep
  message : Option String
deriving DecidableEq

/-- The two state cells of `App` that `handleGenerate` writes. -/
structure AppState where
  cardData : Option CardData
  status : GenerationStatus
deriving DecidableEq

/-- The status published by the catch block of `handleGenerate`. -/
def errorStatus : GenerationStatus :=
  ⟨.error, some "Failed to generate card. Please try again."⟩

/-- Model of the Card Assembler `handleGenerate` (App.tsx lines 136-197),
returning the final state of the two cells it writes.  Effect parameters:
`gem` is the Gemini outcome, `qr` the outcome of `QRCode.toDataURL`
(its rejection is the only member of the `Promise.all` that can reject, since
the metadata and favicon acquirers absorb their failures), `net` the favicon
network oracle, `vw`/`vh` the selected viewport, `websiteTheme` the capture
color scheme, `t1`/`t2` the clock readings of the two `getProxiedUrl` calls,
and `timestamp` the formatted date string.  An empty (falsy) trimmed input
returns early; a `new URL` throw or a `Promise.all` rejection lands in the
catch block, which only sets the error status. -/
def processedUrlOf (input : String) : String :=
  if strStartsWith (toLowerStr (jsTrim input)) "http://" ||
      strStartsWith (toLowerStr (jsTrim input)) "https://" then jsTrim input
  else "https://" ++ jsTrim input

def handleGenerate (st : AppState) (input : String) (gem : GeminiOutcome)
    (qr : Except Unit String) (net : String → FaviconOutcome) (vw vh : Nat)
    (websiteTheme : String) (t1 t2 : Nat) (timestamp : String) : AppState :=
  if jsTrim input = "" then st
  else
    let processedUrl := processedUrlOf input
    match urlHostname processedUrl with
    | none => { st with status := errorStatus }
    | some host =>
      let domain := displayDomain host
      match qr with
      | .error _ => { st with status := errorStatus }
      | .ok qrDataUrl =>
        let metadata := fetchMetadataWithGemini processedUrl gem
        let faviconBase64 := fetchFaviconBase64 net domain processedUrl
        let primaryScreenshotUrl := getProxiedUrl (microlinkUrl processedUrl vw vh websiteTheme) t1
        let backupScreenshotUrl := getProxiedUrl (mshotsUrl processedUrl vw vh) t2
        { cardData := some
            { url := processedUrl
              domain := domain
              title := metadata.title
              description := metadata.description
              screenshotUrl := primaryScreenshotUrl
              backupScreenshotUrl := some backupScreenshotUrl
              faviconUrl := faviconBase64
              qrCodeDataUrl := qrDataUrl
              timestamp := timestamp }
          status := ⟨.completed, none⟩ }

/-! ### Screenshot fallback state machine (`SmartCard`) -/

/-- The `SmartCard` state cells driving the screenshot area. -/
structure ScreenshotState where
  imageError : Bool
  faviconError : Bool
  imageLoading : Bool
  currentScreenshotUrl : String
deriving DecidableEq

/-- The `useEffect` initialisation when a card record arrives
(SmartCard lines 18-25). -/
def initScreenshotState (d : CardData) : ScreenshotState :=
  ⟨false, false, true, d.screenshotUrl⟩

/-- JavaScript truthiness of the optional backup reference: present and
nonempty. -/
def backupTruthy : Option String → Bool
  | none => false
  | some b => !(b == "")

/-- Model of `handleScreenshotError` (SmartCard lines 77-88): on an `img` load
error, if a (truthy) backup exists and the active source still EQUALS the
primary, switch the active source to the backup and stay loading; otherwise
enter the terminal unavailable state (`imageError`, loading cleared). -/
def handleScreenshotError (d : CardData) (s : ScreenshotState) : ScreenshotState :=
  if backupTruthy d.backupScreenshotUrl && (s.currentScreenshotUrl == d.screenshotUrl) then
    { s with currentScreenshotUrl := d.backupScreenshotUrl.getD "" }
  else
    { s with imageLoading := false, imageError := true }

/-! ### Helper lemmas -/

lemma string_eq_of_data_eq (s t : String) (h : s.data = t.data) : s = t := by
  cases s; cases t; exact congrArg String.mk h

lemma strData_append (s t : String) : (s ++ t).data = s.data ++ t.data := by
  cases s; cases t; rfl

lemma isPrefixOf_append_self (l r : List Char) : l.isPrefixOf (l ++ r) = true := by
  induction l with
  | nil => simp [List.isPrefixOf]
  | cons c cs ih => simp [List.isPrefixOf, ih]

lemma replaceFirstAux_append (pat repl rest : List Char) (h : pat ≠ []) :
    replaceFirstAux pat repl (pat ++ rest) = repl ++ rest := by
  cases pat with
  | nil => exact absurd rfl h
  | cons p ps =>
    show replaceFirstAux (p :: ps) repl (p :: (ps ++ rest)) = repl ++ rest
    rw [replaceFirstAux]
    have hpre : (p :: ps).isPrefixOf (p :: ps ++ rest) = true := isPrefixOf_append_self _ _
    simp only [← List.cons_append, hpre, if_true]
    congr 1
    exact List.drop_left (p :: ps) rest

lemma not_isPrefixOf_of_listContainsSub_eq_false (pat l : List Char)
    (h : listContainsSub pat l = false) : pat.isPrefixOf l = false := by
  cases l with
  | nil =>
    rw [listContainsSub] at h
    cases pat with
    | nil => simp [List.isEmpty] at h
    | cons p ps => rfl
  | cons c cs =>
    rw [listContainsSub, Bool.or_eq_false_iff] at h
    exact h.1

lemma digitChar_inj_lt : ∀ a < 10, ∀ b < 10, Nat.digitChar a = Nat.digitChar b → a = b := by
  decide

lemma map_digitChar_inj : ∀ (l1 l2 : List Nat), (∀ d ∈ l1, d < 10) → (∀ d ∈ l2, d < 10) →
    l1.map Nat.digitChar = l2.map Nat.digitChar → l1 = l2 := by
  intro l1
  induction l1 with
  | nil =>
    intro l2 _ _ h
    cases l2 with
    | nil => rfl
    | cons e es => simp at h
  | cons d ds ih =>
    intro l2 h1 h2 h
    cases l2 with
    | nil => simp at h
    | cons e es =>
      simp only [List.map_cons, List.cons.injEq] at h
      have hd : d = e :=
        digitChar_inj_lt d (h1 d (List.mem_cons_self d ds)) e (h2 e (List.mem_cons_self e es)) h.1
      have hds : ds = es := by
        refine ih es (fun x hx => h1 x (List.mem_cons_of_mem d hx))
          (fun x hx => h2 x (List.mem_cons_of_mem e hx)) h.2
      rw [hd, hds]

lemma natToDec_ne_zero_str {n : Nat} (hn : n ≠ 0) : natToDec n ≠ "0" := by
  intro h
  rw [natToDec, if_neg hn] at h
  have hdata : ((Nat.digits 10 n).map Nat.digitChar).reverse = ['0'] := by
    have := congrArg String.data h
    simpa using this
  have hmap : (Nat.digits 10 n).map Nat.digitChar = ['0'] := by
    have := congrArg List.reverse hdata
    simpa using this
  have hds : Nat.digits 10 n = [0] := by
    refine map_digitChar_inj (Nat.digits 10 n) [0]
      (fun d hd => Nat.digits_lt_base (by norm_num) hd) (by simp) ?_
    simpa using hmap
  have : n = 0 := by
    have h0 := Nat.ofDigits_digits 10 n
    rw [hds] at h0
    simpa [Nat.ofDigits] using h0.symm
  exact hn this

lemma natToDec_inj {a b : Nat} (h : natToDec a = natToDec b) : a = b := by
  by_cases ha : a = 0
  · by_cases hb : b = 0
    · rw [ha, hb]
    · exfalso
      refine natToDec_ne_zero_str hb ?_
      rw [← h, ha]
      rfl
  · by_cases hb : b = 0
    · exfalso
      refine natToDec_ne_zero_str ha ?_
      rw [h, hb]
      rfl
    · rw [natToDec, if_neg ha, natToDec, if_neg hb] at h
      have hdata := congrArg String.data h
      simp only at hdata
      have hrev := congrArg List.reverse hdata
      simp only [List.reverse_reverse] at hrev
      have hds : Nat.digits 10 a = Nat.digits 10 b :=
        map_digitChar_inj _ _ (fun d hd => Nat.digits_lt_base (by norm_num) hd)
          (fun d hd => Nat.digits_lt_base (by norm_num) hd) hrev
      have h1 := Nat.ofDigits_digits 10 a
      have h2 := Nat.ofDigits_digits 10 b
      rw [hds] at h1
      rw [← h1, h2]

lemma faviconLoop_cons_early (net : String → FaviconOutcome) (svc : String) (l : List String)
    (h : earlyFailB (net svc) = true) :
    faviconLoop net (svc :: l) = ((faviconLoop net l).1, (faviconLoop net l).2 + 1) := by
  cases hnet : net svc with
  | transportError => simp [faviconLoop, hnet]
  | httpResp ok blobSize blobType readerResult =>
    rw [hnet] at h
    simp only [earlyFailB] at h
    simp [faviconLoop, hnet, h]

lemma faviconLoop_all_early (net : String → FaviconOutcome) (l : List String)
    (h : ∀ svc ∈ l, earlyFailB (net svc) = true) :
    faviconLoop net l = ("", l.length) := by
  induction l with
  | nil => rfl
  | cons s ss ih =>
    rw [faviconLoop_cons_early net s ss (h s (List.mem_cons_self s ss))]
    rw [ih (fun x hx => h x (List.mem_cons_of_mem s hx))]
    simp

lemma faviconLoop_conv_stop (net : String → FaviconOutcome) (svc : String) (l : List String)
    (blobSize : Nat) (blobType : String) (readerResult : Option String)
    (hnet : net svc = .httpResp true blobSize blobType readerResult)
    (hsize : 100 ≤ blobSize)
    (ht : containsSub blobType "text" = false)
    (hh : containsSub blobType "html" = false)
    (hconv : convBad readerResult = true) :
    faviconLoop net (svc :: l) = ("", 1) := by
  have hlt : decide (blobSize < 100) = false := by
    simp [Nat.not_lt.mpr hsize]
  cases readerResult with
  | none => simp [faviconLoop, hnet, hlt, ht, hh]
  | some r =>
    simp only [convBad, Bool.not_eq_true'] at hconv
    simp [faviconLoop, hnet, hlt, ht, hh, hconv]

/-! ### Shared concrete fixtures -/

/-- An idle application state with no card, used as a concrete starting state. -/
def stIdle : AppState := { cardData := none, status := { step := StatusStep.idle, message := none } }

/-! ### C3 -/

/-- C3: in `generateImage`, for either export format, a successful first
capture is returned with no retry; a throwing first capture triggers exactly
one retry with fonts excluded (`skipFonts := true`); if the retry also throws,
that error propagates to the caller; the attempt trace is never longer than
the initial attempt plus one retry. -/
theorem C3_capture_retry (fmt : ImgFormat) (attempt : ImgFormat → Bool → CapResult) :
    ((generateImageRun fmt attempt).2 = [false] ∨
      (generateImageRun fmt attempt).2 = [false, true]) ∧
    (∀ s, attempt fmt false = .ok s → generateImageRun fmt attempt = (.ok s, [false])) ∧
    (∀ e s, attempt fmt false = .err e → attempt fmt true = .ok s →
      generateImageRun fmt attempt = (.ok s, [false, true])) ∧
    (∀ e e2, attempt fmt false = .err e → attempt fmt true = .err e2 →
      generateImageRun fmt attempt = (.err e2, [false, true])) := by
  refine ⟨?_, ?_, ?_, ?_⟩
  · cases h1 : attempt fmt false with
    | ok s => left; simp [generateImageRun, h1]
    | err e => cases h2 : attempt fmt true <;> right <;> simp [generateImageRun, h1, h2]
  · intro s h1; simp [generateImageRun, h1]
  · intro e s h1 h2; simp [generateImageRun, h1, h2]
  · intro e e2 h1 h2; simp [generateImageRun, h1, h2]

/-- Witness for C3 at a concrete double-failure renderer. -/
theorem C3_capture_retry_witness :
    generateImageRun .png
      (fun _ b => if b then CapResult.err "retry failed" else CapResult.err "first failed") =
      (.err "retry failed", [false, true]) :=
  (C3_capture_retry .png
    (fun _ b => if b then CapResult.err "retry failed" else CapResult.err "first failed")).2.2.2
    "first failed" "retry failed" rfl rfl

/-! ### C7 -/

/-- C7 counterexample: the inline social-preview snapshot call site performs
NO discardable pre-warm capture before its real capture — its step trace for
a succeeding renderer is a single real capture, contradicting the claim that
both call sites pre-warm first. -/
theorem C7_counterexample :
    handleSocialPreviewRun true (fun _ _ => CapResult.ok "img") =
      ([ExportStep.capture false], some (CapResult.ok "img")) ∧
    ExportStep.prewarm ∉ [ExportStep.capture false] := by
  exact ⟨rfl, by decide⟩

/-- C7 (amended): only the user-initiated high-resolution download performs
the discardable pre-warm capture (first step of its trace, with both its
result and its failure ignored — the outcome value does not influence the run);
the inline preview snapshot site performs no pre-warm at all. -/
theorem C7_prewarm_only_download (pw pw2 : CapResult) (attempt : ImgFormat → Bool → CapResult) :
    (handleDownloadPngRun true pw attempt).1.head? = some ExportStep.prewarm ∧
    handleDownloadPngRun true pw attempt = handleDownloadPngRun true pw2 attempt ∧
    ExportStep.prewarm ∉ (handleSocialPreviewRun true attempt).1 := by
  refine ⟨by simp [handleDownloadPngRun], rfl, ?_⟩
  simp only [handleSocialPreviewRun, if_true, List.mem_map]
  rintro ⟨b, -, hb⟩
  exact ExportStep.noConfusion hb

/-! ### C5 -/

/-- C5: if every one of the three favicon candidate services yields an
erroring response (transport error or non-success HTTP status) or a non-image
response (body under 100 bytes, or a text/HTML content type), the Favicon
Acquirer returns the absent sentinel `""` after attempting all three
candidates; the embedded function is total, modelling that the source never
raises to its caller. -/
theorem C5_favicon_exhaustion (net : String → FaviconOutcome) (domain originalUrl : String)
    (h : ∀ svc ∈ faviconServices domain originalUrl, earlyFailB (net svc) = true) :
    fetchFaviconBase64 net domain originalUrl = "" ∧
    (faviconLoop net (faviconServices domain originalUrl)).2 = 3 := by
  have hall := faviconLoop_all_early net _ h
  constructor
  · rw [fetchFaviconBase64, hall]
  · rw [hall]
    simp [faviconServices]

/-- Witness for C5: all three candidates fail at transport level. -/
theorem C5_favicon_exhaustion_witness :
    fetchFaviconBase64 (fun _ => FaviconOutcome.transportError) "example.com"
      "https://example.com" = "" ∧
    (faviconLoop (fun _ => FaviconOutcome.transportError)
      (faviconServices "example.com" "https://example.com")).2 = 3 :=
  C5_favicon_exhaustion (fun _ => FaviconOutcome.transportError) "example.com"
    "https://example.com" (by decide)

/-! ### C10 -/

/-- C10: in the favicon candidate loop, as soon as a candidate passes the
HTTP-status, body-size and content-type checks but its `FileReader`
conversion yields a null, empty, or non-`data:image` result, the loop returns
the absent sentinel `""` having attempted only the candidates up to and
including that one — the remaining candidates are never attempted. -/
theorem C10_conversion_shortcircuit (net : String → FaviconOutcome)
    (pre rest : List String) (svc : String) (blobSize : Nat) (blobType : String)
    (readerResult : Option String)
    (hpre : ∀ s ∈ pre, earlyFailB (net s) = true)
    (hnet : net svc = .httpResp true blobSize blobType readerResult)
    (hsize : 100 ≤ blobSize)
    (ht : containsSub blobType "text" = false)
    (hh : containsSub blobType "html" = false)
    (hconv : convBad readerResult = true) :
    faviconLoop net (pre ++ svc :: rest) = ("", pre.length + 1) := by
  induction pre with
  | nil =>
    simpa using faviconLoop_conv_stop net svc rest blobSize blobType readerResult
      hnet hsize ht hh hconv
  | cons p ps ih =>
    rw [List.cons_append,
      faviconLoop_cons_early net p _ (hpre p (List.mem_cons_self p ps)),
      ih (fun x hx => hpre x (List.mem_cons_of_mem p hx))]
    simp

/-- Witness for C10: the second candidate passes the checks but converts to a
non-data-URI string; the loop stops after two attempts, never reaching the
third candidate. -/
theorem C10_conversion_shortcircuit_witness :
    faviconLoop
      (fun s => if s = "s1" then FaviconOutcome.transportError
        else FaviconOutcome.httpResp true 200 "image/png" (some "garbage"))
      (["s1"] ++ "s2" :: ["s3"]) = ("", 2) :=
  C10_conversion_shortcircuit
    (fun s => if s = "s1" then FaviconOutcome.transportError
      else FaviconOutcome.httpResp true 200 "image/png" (some "garbage"))
    ["s1"] ["s3"] "s2" 200 "image/png" (some "garbage")
    (by decide) (by decide) (by decide) (by decide) (by decide) (by decide)

/-! ### C2 -/

/-- A card record whose backup screenshot reference EQUALS its primary
reference, exercising the fallback guard `current === primary`. -/
def cardEqualRefs : CardData :=
  { url := "https://x.example/"
    domain := "x.example"
    title := some "t"
    description := some "d"
    screenshotUrl := "https://wsrv.nl/?url=shot&output=png&n=7"
    backupScreenshotUrl := some "https://wsrv.nl/?url=shot&output=png&n=7"
    faviconUrl := ""
    qrCodeDataUrl := "q"
    timestamp := "Oct 12, 2025" }

/-- C2 counterexample: for a record holding both a primary and a backup
reference that happen to be EQUAL, the first load failure switches to the
backup, but the second failure (the backup failing) does NOT enter the
terminal unavailable state — the guard `current === primary` still holds, so
the machine switches again instead, contradicting the claimed
switch-exactly-once-then-unavailable behaviour. -/
theorem C2_counterexample :
    (handleScreenshotError cardEqualRefs
      (handleScreenshotError cardEqualRefs (initScreenshotState cardEqualRefs))).imageError
        = false ∧
    (handleScreenshotError cardEqualRefs
      (handleScreenshotError cardEqualRefs (initScreenshotState cardEqualRefs))).imageLoading
        = true := by
  decide

/-- C2 (amended): for a record with a present, nonempty backup reference
DIFFERENT from the primary, a primary load failure switches the active source
to the backup exactly once, staying in the pending (loading, non-error)
state, and a subsequent failure of the backup enters the terminal unavailable
state; for a record with no backup reference, a primary load failure
transitions directly to unavailable. -/
theorem C2_screenshot_fallback (d : CardData) (b : String) :
    (d.backupScreenshotUrl = some b → b ≠ "" → b ≠ d.screenshotUrl →
      ((handleScreenshotError d (initScreenshotState d)).currentScreenshotUrl = b ∧
       (handleScreenshotError d (initScreenshotState d)).imageLoading = true ∧
       (handleScreenshotError d (initScreenshotState d)).imageError = false ∧
       (handleScreenshotError d
         (handleScreenshotError d (initScreenshotState d))).imageError = true ∧
       (handleScreenshotError d
         (handleScreenshotError d (initScreenshotState d))).imageLoading = false)) ∧
    (d.backupScreenshotUrl = none →
      ((handleScreenshotError d (initScreenshotState d)).imageError = true ∧
       (handleScreenshotError d (initScreenshotState d)).imageLoading = false)) := by
  constructor
  · intro hb hne hnep
    have h1 : (b == "") = false := beq_eq_false_iff_ne.mpr hne
    have h2 : (b == d.screenshotUrl) = false := beq_eq_false_iff_ne.mpr hnep
    simp [handleScreenshotError, initScreenshotState, backupTruthy, hb, h1, h2]
  · intro hb
    simp [handleScreenshotError, initScreenshotState, backupTruthy, hb]

/-- A card record with distinct primary and backup screenshot references. -/
def cardDistinctRefs : CardData :=
  { url := "https://x.example/"
    domain := "x.example"
    title := some "t"
    description := some "d"
    screenshotUrl := "primaryShot"
    backupScreenshotUrl := some "backupShot"
    faviconUrl := ""
    qrCodeDataUrl := "q"
    timestamp := "Oct 12, 2025" }

/-- Witness for C2 at a record with distinct primary and backup references. -/
theorem C2_screenshot_fallback_witness :
    (handleScreenshotError cardDistinctRefs
      (initScreenshotState cardDistinctRefs)).currentScreenshotUrl = "backupShot" ∧
    (handleScreenshotError cardDistinctRefs
      (initScreenshotState cardDistinctRefs)).imageLoading = true ∧
    (handleScreenshotError cardDistinctRefs
      (initScreenshotState cardDistinctRefs)).imageError = false ∧
    (handleScreenshotError cardDistinctRefs (handleScreenshotError cardDistinctRefs
      (initScreenshotState cardDistinctRefs))).imageError = true ∧
    (handleScreenshotError cardDistinctRefs (handleScreenshotError cardDistinctRefs
      (initScreenshotState cardDistinctRefs))).imageLoading = false :=
  (C2_screenshot_fallback cardDistinctRefs "backupShot").1 rfl (by decide) (by decide)

/-! ### C6 -/

/-- C6 counterexample: generating a card for `https://www.www.example.com`
produces the display domain `www.example.com`, which still begins with
`www.` — the code removes the FIRST occurrence of the substring `www.`
rather than a leading one, refuting the claim that the display domain never
contains a leading `www.`. -/
theorem C6_counterexample :
    (handleGenerate stIdle "https://www.www.example.com" GeminiOutcome.throwErr
      (Except.ok "qr") (fun _ => FaviconOutcome.transportError) 1280 800 "light" 0 0
      "Oct 12, 2025").cardData.map CardData.domain = some "www.example.com" ∧
    strStartsWith "www.example.com" "www." = true := by
  decide

/-- C6 (amended): the display domain is the hostname with the first
occurrence of the substring `www.` removed; whenever the hostname is `www.`
followed by a remainder containing no further occurrence of `www.`, this
coincides with stripping the leading `www.` and the result does not begin
with `www.`; in particular `https://www.example.com/path` yields hostname
`www.example.com` and display domain `example.com`. -/
theorem C6_display_domain :
    (∀ rest : String, listContainsSub ("www.".data) rest.data = false →
      displayDomain ("www." ++ rest) = rest ∧ strStartsWith rest "www." = false) ∧
    urlHostname "https://www.example.com/path" = some "www.example.com" ∧
    displayDomain "www.example.com" = "example.com" := by
  refine ⟨?_, by decide, by decide⟩
  intro rest hc
  constructor
  · rw [displayDomain, jsReplaceFirst, strData_append,
      replaceFirstAux_append _ _ _ (by decide)]
    exact string_eq_of_data_eq _ _ (by simp)
  · rw [strStartsWith]
    exact not_isPrefixOf_of_listContainsSub_eq_false _ _ hc

/-- Witness for C6 at the hostname `www.example.com`. -/
theorem C6_display_domain_witness :
    displayDomain ("www." ++ "example.com") = "example.com" ∧
    strStartsWith "example.com" "www." = false :=
  C6_display_domain.1 "example.com" (by decide)

/-! ### C8 -/

/-- C8 counterexample: the cache-defeat token is the millisecond clock
reading `Date.now()`, which is only non-strictly monotone — two calls of the
Proxy Resolver may observe the SAME reading, and then the two proxied URLs
for the same logical target coincide exactly, refuting the claim that the
tokens of every two distinct calls differ. -/
theorem C8_counterexample :
    (1733000000000 : Nat) ≤ 1733000000000 ∧
    getProxiedUrl "https://example.com" 1733000000000 =
      getProxiedUrl "https://example.com" 1733000000000 :=
  ⟨le_refl 1733000000000, rfl⟩

/-- C8 (amended): two Proxy Resolver calls that observe DIFFERENT clock
readings append different cache-defeat tokens, so the two proxied URLs for
the same logical target never coincide; calls falling within the same
millisecond observe equal readings and produce identical URLs. -/
theorem C8_cache_token (url : String) (t1 t2 : Nat) (h : t1 ≠ t2) :
    getProxiedUrl url t1 ≠ getProxiedUrl url t2 := by
  intro heq
  apply h
  apply natToDec_inj
  have hform : ∀ t : Nat, getProxiedUrl url t =
      ("https://wsrv.nl/?url=" ++ encodeURIComponent url ++ "&output=png&n=") ++ natToDec t :=
    fun t => rfl
  rw [hform t1, hform t2] at heq
  have hdata := congrArg String.data heq
  rw [strData_append, strData_append] at hdata
  exact string_eq_of_data_eq _ _ (List.append_cancel_left hdata)

/-- Witness for C8 at two distinct clock readings. -/
theorem C8_cache_token_witness :
    getProxiedUrl "https://example.com" 1 ≠ getProxiedUrl "https://example.com" 2 :=
  C8_cache_token "https://example.com" 1 2 (by decide)

/-! ### C1 -/

/-- C1 counterexample: for `https://www.example.com/path`, the Metadata
Acquirer's network-failure fallback title is the raw hostname
`www.example.com`, NOT the card's display domain `example.com`; moreover a
structurally malformed — but syntactically valid — JSON response (here an
object with every expected property absent) is returned as-is rather than
replaced by the fallback. -/
theorem C1_counterexample :
    (fetchMetadataWithGemini "https://www.example.com/path"
      GeminiOutcome.throwErr).title = some "www.example.com" ∧
    displayDomain "www.example.com" = "example.com" ∧
    (some "www.example.com" : Option String) ≠ some "example.com" ∧
    fetchMetadataWithGemini "https://www.example.com/path"
      (GeminiOutcome.parseOk ⟨none, none, none, none, none⟩) =
      ⟨none, none, none, none, none⟩ ∧
    (⟨none, none, none, none, none⟩ : JsMeta) ≠
      geminiFallback "https://www.example.com/path" := by
  decide

/-- C1 (amended): on a network error, an empty upstream response, or a
`JSON.parse` failure, the Metadata Acquirer returns exactly
`{title: hostname, description: "Link to " + url}` where hostname is the
URL's raw hostname (NOT the www-stripped display domain), or
`{title: "Website", description: url}` when the URL itself does not parse;
it never throws to its caller (the embedded function is total).  A response
that parses as JSON is returned as-is with no shape validation. -/
theorem C1_metadata_fallback (url : String) (o : GeminiOutcome)
    (hfail : o = .throwErr ∨ o = .emptyText ∨ o = .parseFail) :
    (∀ h, urlHostname url = some h →
      fetchMetadataWithGemini url o =
        ⟨some h, some ("Link to " ++ url), some "", some "", some []⟩) ∧
    (urlHostname url = none →
      fetchMetadataWithGemini url o =
        ⟨some "Website", some url, some "", some "", some []⟩) := by
  have hf : fetchMetadataWithGemini url o = geminiFallback url := by
    rcases hfail with h | h | h <;> rw [h] <;> rfl
  constructor
  · intro hh hhost
    rw [hf, geminiFallback, hhost]
  · intro hhost
    rw [hf, geminiFallback, hhost]

/-- Witness for C1 at a parseable URL and a network failure. -/
theorem C1_metadata_fallback_witness :
    fetchMetadataWithGemini "https://www.example.com/path" GeminiOutcome.throwErr =
      ⟨some "www.example.com", some "Link to https://www.example.com/path",
        some "", some "", some []⟩ :=
  (C1_metadata_fallback "https://www.example.com/path" GeminiOutcome.throwErr
    (Or.inl rfl)).1 "www.example.com" (by decide)

/-! ### C4 -/

/-- C4: whenever a non-empty generation attempt ends in the error status
(unparseable URL or a rejected acquisition), the final state is exactly the
prior state with only the status replaced by the error status — in
particular the previous card record (if any) is left untouched and no
partial record is published. -/
theorem C4_no_partial_record (st : AppState) (input : String) (gem : GeminiOutcome)
    (qr : Except Unit String) (net : String → FaviconOutcome) (vw vh : Nat)
    (websiteTheme : String) (t1 t2 : Nat) (timestamp : String)
    (hne : jsTrim input ≠ "")
    (herr : (handleGenerate st input gem qr net vw vh websiteTheme t1 t2
      timestamp).status.step = StatusStep.error) :
    handleGenerate st input gem qr net vw vh websiteTheme t1 t2 timestamp =
      { st with status := errorStatus } ∧
    (handleGenerate st input gem qr net vw vh websiteTheme t1 t2
      timestamp).cardData = st.cardData := by
  have key : handleGenerate st input gem qr net vw vh websiteTheme t1 t2 timestamp =
      { st with status := errorStatus } := by
    rw [handleGenerate, if_neg hne] at herr ⊢
    cases hu : urlHostname (processedUrlOf input) with
    | none => simp only [hu]
    | some host =>
      simp only [hu] at herr ⊢
      cases qr with
      | error e => rfl
      | ok q => simp at herr
  exact ⟨key, by rw [key]⟩

/-- Witness for C4: a previously completed state with an existing card, and
an input whose processed URL fails to parse (its host contains a space);
the attempt ends in the error status and the prior card survives unchanged. -/
theorem C4_no_partial_record_witness :
    handleGenerate
      { cardData := some cardDistinctRefs,
        status := { step := StatusStep.completed, message := none } }
      "a b" GeminiOutcome.throwErr (Except.ok "qr")
      (fun _ => FaviconOutcome.transportError) 1280 800 "light" 0 0 "ts" =
      { cardData := some cardDistinctRefs, status := errorStatus } ∧
    (handleGenerate
      { cardData := some cardDistinctRefs,
        status := { step := StatusStep.completed, message := none } }
      "a b" GeminiOutcome.throwErr (Except.ok "qr")
      (fun _ => FaviconOutcome.transportError) 1280 800 "light" 0 0 "ts").cardData =
      some cardDistinctRefs :=
  C4_no_partial_record
    { cardData := some cardDistinctRefs,
      status := { step := StatusStep.completed, message := none } }
    "a b" GeminiOutcome.throwErr (Except.ok "qr")
    (fun _ => FaviconOutcome.transportError) 1280 800 "light" 0 0 "ts"
    (by decide) (by decide)
